import Mathlib

/-!
Verification of the Monte Carlo return-simulation and composite-scoring core
of the portfolio repository, as a shallow embedding over exact rationals.

The embedded functions mirror, line by line:
  * crypto_profit_maximizer.py : simulate_30_day_returns (trial loop lines
    92-101 and statistics block lines 103-151), calculate_profit_score
    (lines 154-181), and the allocation step of get_top_recommendations
    (lines 227-239);
  * crypto_predictor.py : calculate_composite_score (lines 143-165);
  * the Box-Muller draw normal_random (both files).

Modelling conventions:
  * Python float arithmetic is modelled by exact rational arithmetic; the
    one non-rational operation, math.sqrt, is modelled by an explicit
    square-root oracle argument (s : Q -> Q).  Theorems that depend on
    square-root behaviour take the needed facts about s as hypotheses, and
    concrete evaluations instantiate s with ratSqrt, which is exact on
    perfect squares (certified at every point used).
  * The stream of standard-normal shocks consumed by the trial loop is an
    explicit argument (stream : N -> Q); trial t consumes entries
    stream (30*t), ..., stream (30*t + 29), one per simulated day, exactly
    as the loop draws one normal_random per day.
  * the float infinity Sortino sentinel is modelled by none : Option Q.
  * A Python ZeroDivisionError is modelled by an Option-valued wrapper
    returning none.
-/

/-- Per-asset catalog parameters, the value triple stored in the
CRYPTOCURRENCIES dictionaries: keys price, volatility, drift. -/
structure AssetParams where
  price : ℚ
  volatility : ℚ
  drift : ℚ

/-- The statistics bundle returned by simulate_30_day_returns
(crypto_profit_maximizer.py lines 137-151).  Dictionary keys avg_return,
median_return, p10, p25, p75, p90, volatility, prob_loss, sharpe_ratio
(field sharpe), sortino_ratio (field sortino, none encoding float inf),
max_loss, upside_potential, downside_risk. -/
structure SimStats where
  avg_return : ℚ
  median_return : ℚ
  p10 : ℚ
  p25 : ℚ
  p75 : ℚ
  p90 : ℚ
  volatility : ℚ
  prob_loss : ℚ
  sharpe : ℚ
  sortino : Option ℚ
  max_loss : ℚ
  upside_potential : ℚ
  downside_risk : ℚ

/-- Price after n iterations of the inner day loop (lines 95-98):
price = price * (1 + drift + volatility * shock), starting from the
initial price, where z d is the standard-normal shock drawn on day d. -/
def stepPrice (params : AssetParams) (z : ℕ → ℚ) : ℕ → ℚ
  | 0 => params.price
  | d + 1 => stepPrice params z d * (1 + params.drift + params.volatility * z d)

/-- Terminal price of one trial: the day loop runs for day in range(30),
hence thirty multiplicative steps. -/
def trialFinalPrice (params : AssetParams) (z : ℕ → ℚ) : ℚ :=
  stepPrice params z 30

/-- Terminal percentage return of one trial (line 100):
((price - initial_price) / initial_price) * 100. -/
def trialReturnPct (params : AssetParams) (z : ℕ → ℚ) : ℚ :=
  (trialFinalPrice params z - params.price) / params.price * 100

/-- The list final_returns built by the outer trial loop (lines 90-101):
one terminal percentage return per trial, trial t reading its thirty
shocks from the flat stream at offsets 30*t + d. -/
def finalReturns (params : AssetParams) (stream : ℕ → ℚ) (M : ℕ) : List ℚ :=
  (List.range M).map (fun t => trialReturnPct params (fun d => stream (30 * t + d)))

/-- sorted(final_returns) (line 105); insertion sort is a stable
ascending sort, matching the Python built-in on rationals. -/
def sortedReturns (l : List ℚ) : List ℚ :=
  l.insertionSort (fun a b => a ≤ b)

/-- The percentile index int(len * q) (lines 108-112); int() truncates and
len * q is non-negative here, so it is the floor. -/
def pctIdx (n : ℕ) (q : ℚ) : ℕ :=
  (⌊(n : ℚ) * q⌋).toNat

/-- downside_variance (line 128): the mean of the squared negative
returns, sum(r**2 for r in downside_returns) / len(downside_returns). -/
def downsideVariance (l : List ℚ) : ℚ :=
  let downside_returns := l.filter (fun r => decide (r < 0))
  ((downside_returns.map (fun r => r ^ 2)).sum) / (downside_returns.length : ℚ)

/-- The statistics block of simulate_30_day_returns (lines 103-151),
applied to the list final_returns.  s is the square-root oracle standing
for math.sqrt. -/
def computeStats (s : ℚ → ℚ) (final_returns : List ℚ) : SimStats :=
  let avg_return := final_returns.sum / (final_returns.length : ℚ)
  let sorted_list := sortedReturns final_returns
  let p10 := sorted_list.getD (pctIdx sorted_list.length 0.10) 0
  let p25 := sorted_list.getD (pctIdx sorted_list.length 0.25) 0
  let p50 := sorted_list.getD (pctIdx sorted_list.length 0.50) 0
  let p75 := sorted_list.getD (pctIdx sorted_list.length 0.75) 0
  let p90 := sorted_list.getD (pctIdx sorted_list.length 0.90) 0
  let losses := final_returns.filter (fun r => decide (r < 0))
  let prob_loss := (losses.length : ℚ) / (final_returns.length : ℚ) * 100
  let variance := (final_returns.map (fun r => (r - avg_return) ^ 2)).sum / (final_returns.length : ℚ)
  let std_dev := s variance
  let sharpe := if 0 < std_dev then avg_return / std_dev else 0
  let downside_returns := final_returns.filter (fun r => decide (r < 0))
  let sortino : Option ℚ :=
    if downside_returns = [] then
      (if 0 < avg_return then none else some 0)
    else
      (if 0 < s (downsideVariance final_returns) then
        some (avg_return / s (downsideVariance final_returns))
      else some 0)
  let max_loss := final_returns.min?.getD 0
  { avg_return := avg_return
    median_return := p50
    p10 := p10
    p25 := p25
    p75 := p75
    p90 := p90
    volatility := std_dev
    prob_loss := prob_loss
    sharpe := sharpe
    sortino := sortino
    max_loss := max_loss
    upside_potential := p90
    downside_risk := p10 }

/-- simulate_30_day_returns as a whole: run the trial loop on a given
shock stream, then reduce with the statistics block. -/
def simulate_30_day_returns (s : ℚ → ℚ) (stream : ℕ → ℚ) (params : AssetParams) (M : ℕ) : SimStats :=
  computeStats s (finalReturns params stream M)

/-- simulate_30_day_returns including its failure behaviour: the function
body performs no parameter validation; the only failures are Python
ZeroDivisionErrors, raised exactly when the trial count is zero (the
mean on line 104 then divides by len([]) = 0) or the initial price is
zero (line 100 divides by it inside the first trial).  A negative initial
price or trial count raises nothing special: range of a negative count is
empty, which again makes the statistics divide by zero. -/
def simulateChecked (s : ℚ → ℚ) (stream : ℕ → ℚ) (params : AssetParams) (M : ℕ) : Option SimStats :=
  if M = 0 ∨ params.price = 0 then none
  else some (simulate_30_day_returns s stream params M)

/-- calculate_profit_score (crypto_profit_maximizer.py lines 154-181).
The sortino field may hold the float inf sentinel (none): in IEEE
arithmetic min(max(inf * 15, 0), 100) = 100, which the none branch
returns. -/
def calculate_profit_score (st : SimStats) : ℚ :=
  let return_score := min (max (st.avg_return * 3) 0) 100
  let upside_score := min (max (st.p90 * 2) 0) 100
  let sortino_score :=
    match st.sortino with
    | none => (100 : ℚ)
    | some v => min (max (v * 15) 0) 100
  let downside_score := max (100 + st.p10) 0
  let sharpe_score := min (max (st.sharpe * 25) 0) 100
  return_score * 0.35 + upside_score * 0.25 + sortino_score * 0.20 +
    downside_score * 0.15 + sharpe_score * 0.05

/-- calculate_composite_score (crypto_predictor.py lines 143-165).  The
function reads exactly four numbers: avg_return, sharpe_ratio and
prob_loss from its statistics dictionary, plus the momentum signal. -/
def calculate_composite_score (avg sharpe prob_loss momentum : ℚ) : ℚ :=
  let return_score := min (max (avg * 2) 0) 100
  let sharpe_score := min (max (sharpe * 20) 0) 100
  let momentum_score := min (max (momentum * 2) 0) 100
  let risk_score := max (100 - prob_loss) 0
  return_score * 0.40 + sharpe_score * 0.30 + momentum_score * 0.20 + risk_score * 0.10

/-- The per-recommendation allocation assignment of get_top_recommendations
(line 237): allocation_pct = (score / total_score) * 100 for each entry of
the ranked top list. -/
def allocationList (scores : List ℚ) : List ℚ :=
  scores.map (fun sc => sc / scores.sum * 100)

/-- The allocation step of get_top_recommendations (lines 234-237) with
its failure behaviour: the division score / total_score is executed once
per entry with no zero check, so a nonempty top list whose scores sum to
zero raises ZeroDivisionError (modelled as none); an empty top list skips
the loop body and succeeds vacuously. -/
def topAllocations (scores : List ℚ) : Option (List ℚ) :=
  if scores ≠ [] ∧ scores.sum = 0 then none
  else some (allocationList scores)

/-- The ranking step of get_top_recommendations (lines 228-231): stable
sort by score descending, then take the first K. -/
def rankTop (K : ℕ) (scores : List ℚ) : List ℚ :=
  (scores.insertionSort (fun a b => b ≤ a)).take K

/-- Concrete square-root oracle used to instantiate s in closed
statements: exact whenever numerator and denominator are perfect squares
(every instantiation point below is certified by an explicit equation in
the theorem that uses it). -/
def ratSqrt (q : ℚ) : ℚ :=
  (Nat.sqrt q.num.toNat : ℚ) / (Nat.sqrt q.den : ℚ)

/-- The set of values the Python library call random.random() can return:
the half-open unit interval [0, 1), zero included (documented behaviour
of the generator used for u1 and u2 in normal_random). -/
def pythonUnitRange (u : ℚ) : Prop :=
  0 ≤ u ∧ u < 1

/-- The domain of math.log, the logarithm applied to u1 by the Box-Muller
transform in normal_random: math.log(x) raises a ValueError domain error
unless 0 < x. -/
def logDomain (x : ℚ) : Prop :=
  0 < x

/-- Modelled from the spec: the Sortino ratio as the spec words it,
mean divided by the standard deviation of only the negative-return
subsample (the standard deviation of the subsample about its own mean),
treated as the +infinity sentinel if there are no losing trials and the
mean is positive, else 0.  Written to be compared with the sortino field
computed by the code. -/
def sortinoSpec (s : ℚ → ℚ) (final_returns : List ℚ) : Option ℚ :=
  let avg := final_returns.sum / (final_returns.length : ℚ)
  let neg := final_returns.filter (fun r => decide (r < 0))
  if neg = [] then
    (if 0 < avg then none else some 0)
  else
    let m := neg.sum / (neg.length : ℚ)
    some (avg / s ((neg.map (fun r => (r - m) ^ 2)).sum / (neg.length : ℚ)))

/-- Generator state after n draws, for an abstract pseudo-random step
function next : state -> draw * state (the state models the global
Mersenne Twister state of the random module, one draw standing for one
normal_random call). -/
def stateAfter (next : ℕ → ℚ × ℕ) (st : ℕ) : ℕ → ℕ
  | 0 => st
  | n + 1 => (next (stateAfter next st n)).2

/-- The draw stream produced from a generator state: draw i is emitted
by the i-th application of next. -/
def streamFrom (next : ℕ → ℚ × ℕ) (st : ℕ) : ℕ → ℚ :=
  fun i => (next (stateAfter next st i)).1

/-- The seed computed on line 84: hash(crypto) % 2**32, for an abstract
hash function (Python hash returns an integer; % 2**32 is non-negative). -/
def globalSeed (hashFn : String → ℤ) (crypto : String) : ℕ :=
  (hashFn crypto % (2 ^ 32 : ℤ)).toNat

/-- simulate_30_day_returns with the global-generator protocol made
explicit: the function receives the incoming global generator state g0,
immediately overwrites it via random.seed(hash(crypto) % 2**32) (line 84),
consumes one draw per simulated day, and leaves the advanced state
behind.  seedFn maps a seed to the reseeded generator state. -/
def simulateSeeded (s : ℚ → ℚ) (next : ℕ → ℚ × ℕ) (seedFn : ℕ → ℕ) (hashFn : String → ℤ)
    (crypto : String) (params : AssetParams) (M : ℕ) (g0 : ℕ) : SimStats × ℕ :=
  let st1 := seedFn (globalSeed hashFn crypto)
  (simulate_30_day_returns s (streamFrom next st1) params M, stateAfter next st1 (30 * M))

/-- Concrete shock stream: trial 0 gets a single day-0 shock of 0.59,
trial 1 a single day-0 shock of 0.61, all other shocks zero. -/
def shockC2 : ℕ → ℚ :=
  fun i => if i = 0 then 59/100 else if i = 30 then 61/100 else 0

/-- Concrete shock stream: day-0 shocks of the three trials are -0.01,
-0.07 and 0.32, all other shocks zero. -/
def shockC6 : ℕ → ℚ :=
  fun i => if i = 0 then -1/100 else if i = 30 then -7/100 else if i = 60 then 32/100 else 0

/-! ## General lemmas about the embedded operations -/

theorem natSqrt_eval_pre (n m : ℕ) (h1 : m * m ≤ n) (h2 : n < (m + 1) * (m + 1)) :
    Nat.sqrt n = m := by
  have ha : m ≤ Nat.sqrt n := Nat.le_sqrt.mpr h1
  have hb : Nat.sqrt n < m + 1 := Nat.sqrt_lt.mpr h2
  omega

theorem ratSqrt_zero : ratSqrt 0 = 0 := by
  simp [ratSqrt]

theorem ratSqrt_one : ratSqrt 1 = 1 := by
  simp [ratSqrt]

theorem ratSqrt_nine : ratSqrt 9 = 3 := by
  norm_num [ratSqrt]
  rw [show ((9 : ℤ)).toNat = 9 from rfl, natSqrt_eval_pre 9 3 (by norm_num) (by norm_num)]
  norm_num

theorem ratSqrt_twentyfive : ratSqrt 25 = 5 := by
  norm_num [ratSqrt]
  rw [show ((25 : ℤ)).toNat = 25 from rfl, natSqrt_eval_pre 25 5 (by norm_num) (by norm_num)]
  norm_num

theorem computeStats_avg (s : ℚ → ℚ) (l : List ℚ) :
    (computeStats s l).avg_return = l.sum / (l.length : ℚ) := rfl

theorem computeStats_p10 (s : ℚ → ℚ) (l : List ℚ) :
    (computeStats s l).p10 = (sortedReturns l).getD (pctIdx (sortedReturns l).length 0.10) 0 := rfl

theorem computeStats_p25 (s : ℚ → ℚ) (l : List ℚ) :
    (computeStats s l).p25 = (sortedReturns l).getD (pctIdx (sortedReturns l).length 0.25) 0 := rfl

theorem computeStats_median (s : ℚ → ℚ) (l : List ℚ) :
    (computeStats s l).median_return = (sortedReturns l).getD (pctIdx (sortedReturns l).length 0.50) 0 := rfl

theorem computeStats_p75 (s : ℚ → ℚ) (l : List ℚ) :
    (computeStats s l).p75 = (sortedReturns l).getD (pctIdx (sortedReturns l).length 0.75) 0 := rfl

theorem computeStats_p90 (s : ℚ → ℚ) (l : List ℚ) :
    (computeStats s l).p90 = (sortedReturns l).getD (pctIdx (sortedReturns l).length 0.90) 0 := rfl

theorem computeStats_prob (s : ℚ → ℚ) (l : List ℚ) :
    (computeStats s l).prob_loss
      = ((l.filter (fun r => decide (r < 0))).length : ℚ) / (l.length : ℚ) * 100 := rfl

theorem computeStats_vol (s : ℚ → ℚ) (l : List ℚ) :
    (computeStats s l).volatility
      = s ((l.map (fun r => (r - l.sum / (l.length : ℚ)) ^ 2)).sum / (l.length : ℚ)) := rfl

theorem computeStats_sharpe (s : ℚ → ℚ) (l : List ℚ) :
    (computeStats s l).sharpe
      = (if 0 < s ((l.map (fun r => (r - l.sum / (l.length : ℚ)) ^ 2)).sum / (l.length : ℚ)) then
          (l.sum / (l.length : ℚ))
            / s ((l.map (fun r => (r - l.sum / (l.length : ℚ)) ^ 2)).sum / (l.length : ℚ))
        else 0) := rfl

theorem computeStats_sortino (s : ℚ → ℚ) (l : List ℚ) :
    (computeStats s l).sortino
      = (if l.filter (fun r => decide (r < 0)) = [] then
          (if 0 < l.sum / (l.length : ℚ) then none else some 0)
        else
          (if 0 < s (downsideVariance l) then
            some ((l.sum / (l.length : ℚ)) / s (downsideVariance l))
          else some 0)) := rfl

theorem finalReturns_length (params : AssetParams) (stream : ℕ → ℚ) (M : ℕ) :
    (finalReturns params stream M).length = M := by
  simp [finalReturns]

theorem finalReturns_succ (params : AssetParams) (stream : ℕ → ℚ) (M : ℕ) :
    finalReturns params stream (M + 1)
      = finalReturns params stream M
        ++ [trialReturnPct params (fun d => stream (30 * M + d))] := by
  simp [finalReturns, List.range_succ]

theorem finalReturns_const (params : AssetParams) (stream : ℕ → ℚ) (M : ℕ) (c : ℚ)
    (h : ∀ t, trialReturnPct params (fun d => stream (30 * t + d)) = c) :
    finalReturns params stream M = List.replicate M c := by
  induction M with
  | zero => simp [finalReturns]
  | succ m ih =>
    rw [finalReturns_succ, ih, h m, List.replicate_succ' m c]

theorem sortedReturns_length (l : List ℚ) : (sortedReturns l).length = l.length :=
  (List.perm_insertionSort _ l).length_eq

theorem sortedReturns_sorted (l : List ℚ) :
    List.Sorted (fun a b : ℚ => a ≤ b) (sortedReturns l) :=
  List.sorted_insertionSort _ l

theorem pctIdx_mono (n : ℕ) (q r : ℚ) (hqr : q ≤ r) : pctIdx n q ≤ pctIdx n r := by
  have h1 : ⌊(n : ℚ) * q⌋ ≤ ⌊(n : ℚ) * r⌋ :=
    Int.floor_le_floor (mul_le_mul_of_nonneg_left hqr (by positivity))
  unfold pctIdx
  omega

theorem pctIdx_lt (n : ℕ) (hn : 1 ≤ n) (q : ℚ) (hq : q < 1) : pctIdx n q < n := by
  have hn0 : (0 : ℚ) < n := by exact_mod_cast hn
  have h1 : ⌊(n : ℚ) * q⌋ < (n : ℤ) := by
    rw [Int.floor_lt]
    push_cast
    nlinarith
  unfold pctIdx
  omega

theorem sorted_getD_mono (l : List ℚ) (hs : List.Sorted (fun a b : ℚ => a ≤ b) l)
    (i j : ℕ) (hij : i ≤ j) (hj : j < l.length) : l.getD i 0 ≤ l.getD j 0 := by
  have hi : i < l.length := lt_of_le_of_lt hij hj
  rw [List.getD_eq_get l 0 hi, List.getD_eq_get l 0 hj]
  exact hs.rel_get_of_le (Fin.mk_le_mk.mpr hij)

theorem stepPrice_zero_vol (p dr : ℚ) (z : ℕ → ℚ) (n : ℕ) :
    stepPrice ⟨p, 0, dr⟩ z n = p * (1 + dr) ^ n := by
  induction n with
  | zero => simp [stepPrice]
  | succ m ih =>
    simp only [stepPrice, ih, pow_succ]
    ring

theorem stepPrice_impulse (p v : ℚ) (z : ℕ → ℚ) (n : ℕ) (hn : 1 ≤ n)
    (hz : ∀ d, 1 ≤ d → d < n → z d = 0) :
    stepPrice ⟨p, v, 0⟩ z n = p * (1 + v * z 0) := by
  induction n with
  | zero => omega
  | succ m ih =>
    rcases Nat.eq_zero_or_pos m with hm | hm
    · subst hm
      simp only [stepPrice]
      ring
    · simp only [stepPrice]
      rw [hz m hm (by omega), ih hm (fun d h1 h2 => hz d h1 (by omega))]
      ring

theorem sum_map_alloc (T : ℚ) (l : List ℚ) :
    (l.map (fun sc => sc / T * 100)).sum = l.sum / T * 100 := by
  induction l with
  | nil => simp
  | cons a t ih =>
    simp only [List.map_cons, List.sum_cons, ih]
    rw [add_div]
    ring

theorem allocationList_sum (l : List ℚ) (h : l.sum ≠ 0) :
    (allocationList l).sum = 100 := by
  rw [allocationList, sum_map_alloc, div_self h, one_mul]

theorem getD_map_alloc (T : ℚ) (l : List ℚ) (i : ℕ) (hi : i < l.length) :
    (l.map (fun sc => sc / T * 100)).getD i 0 = l.getD i 0 / T * 100 := by
  induction l generalizing i with
  | nil => simp at hi
  | cons a t ih =>
    cases i with
    | zero => simp
    | succ n =>
      simp only [List.map_cons, List.getD_cons_succ]
      exact ih n (by simpa using hi)

theorem clip_bounds (x : ℚ) : 0 ≤ min (max x 0) 100 ∧ min (max x 0) 100 ≤ 100 :=
  ⟨le_min (le_max_right x 0) (by norm_num), min_le_right _ _⟩

theorem computeStats_replicate (s : ℚ → ℚ) (M : ℕ) (c : ℚ) (hM : 1 ≤ M) (hc : 0 < c)
    (hs : s 0 = 0) :
    (computeStats s (List.replicate M c)).avg_return = c ∧
    (computeStats s (List.replicate M c)).volatility = 0 ∧
    (computeStats s (List.replicate M c)).prob_loss = 0 := by
  have hM0 : ((M : ℚ)) ≠ 0 := Nat.cast_ne_zero.mpr (by omega)
  have havg : (List.replicate M c).sum / ((List.replicate M c).length : ℚ) = c := by
    rw [List.sum_replicate, List.length_replicate, nsmul_eq_mul, mul_comm, mul_div_assoc,
      div_self hM0, mul_one]
  have hfil : (List.replicate M c).filter (fun r => decide (r < 0)) = [] := by
    rw [List.filter_eq_nil]
    intro a ha
    rw [List.eq_of_mem_replicate ha]
    simpa using not_lt.mpr hc.le
  refine ⟨by rw [computeStats_avg]; exact havg, ?_, ?_⟩
  · rw [computeStats_vol, havg]
    simp [List.map_replicate, sub_self, List.sum_replicate, hs]
  · rw [computeStats_prob, hfil]
    simp

/-! ## Claim theorems -/

/-- Claim C3 (confirmed): for every ranked top-K list whose composite
scores have nonzero sum, the orchestrator assigns
allocation_pct i = score i / (sum of top-K scores) * 100 to each
recommendation, no ZeroDivisionError occurs, and the K allocation
percentages sum to exactly 100 in rational arithmetic. -/
theorem C3_thm (K : ℕ) (scores : List ℚ) (h : (rankTop K scores).sum ≠ 0) :
    topAllocations (rankTop K scores) = some (allocationList (rankTop K scores)) ∧
    (allocationList (rankTop K scores)).sum = 100 ∧
    ∀ i, i < (rankTop K scores).length →
      (allocationList (rankTop K scores)).getD i 0
        = (rankTop K scores).getD i 0 / (rankTop K scores).sum * 100 := by
  refine ⟨?_, allocationList_sum _ h, ?_⟩
  · rw [topAllocations, if_neg]
    intro hcon
    exact h hcon.2
  · intro i hi
    exact getD_map_alloc _ _ i hi

/-- Witness for C3_thm at K = 2, scores = [1, 3, 2]: the ranked top list
is [3, 2], its sum 5 is nonzero. -/
theorem C3_thm_witness :
    (rankTop 2 [1, 3, 2]).sum ≠ 0 ∧
    (topAllocations (rankTop 2 [1, 3, 2]) = some (allocationList (rankTop 2 [1, 3, 2])) ∧
     (allocationList (rankTop 2 [1, 3, 2])).sum = 100 ∧
     ∀ i, i < (rankTop 2 [1, 3, 2]).length →
       (allocationList (rankTop 2 [1, 3, 2])).getD i 0
         = (rankTop 2 [1, 3, 2]).getD i 0 / (rankTop 2 [1, 3, 2]).sum * 100) := by
  have h : (rankTop 2 [1, 3, 2]).sum ≠ 0 := by
    norm_num [rankTop, List.insertionSort, List.orderedInsert]
  exact ⟨h, C3_thm 2 [1, 3, 2] h⟩

/-- Claim C4 (code_bug): when all top-K composite scores are zero the
orchestrator does NOT special-case the degenerate input: the allocation
loop divides each score by the zero total and raises ZeroDivisionError
(modelled by none), instead of distributing allocation_pct equally as the
spec requires. -/
theorem C4_thm : topAllocations (rankTop 3 [0, 0, 0, 0]) = none := by
  have h : rankTop 3 [0, 0, 0, 0] = [0, 0, 0] := by
    norm_num [rankTop, List.insertionSort, List.orderedInsert]
  rw [h, topAllocations, if_pos]
  exact ⟨by simp, by norm_num⟩

/-- Claim C5 (confirmed): for every statistics bundle produced by the
aggregator (any square-root oracle, shock stream, asset parameters and
trial count M >= 1) the reported percentile returns are monotonically
non-decreasing: p10 <= p25 <= p50 <= p75 <= p90. -/
theorem C5_thm (s : ℚ → ℚ) (stream : ℕ → ℚ) (params : AssetParams) (M : ℕ) (hM : 1 ≤ M) :
    (simulate_30_day_returns s stream params M).p10
        ≤ (simulate_30_day_returns s stream params M).p25 ∧
    (simulate_30_day_returns s stream params M).p25
        ≤ (simulate_30_day_returns s stream params M).median_return ∧
    (simulate_30_day_returns s stream params M).median_return
        ≤ (simulate_30_day_returns s stream params M).p75 ∧
    (simulate_30_day_returns s stream params M).p75
        ≤ (simulate_30_day_returns s stream params M).p90 := by
  rw [simulate_30_day_returns, computeStats_p10, computeStats_p25, computeStats_median,
    computeStats_p75, computeStats_p90]
  have hn : 1 ≤ (sortedReturns (finalReturns params stream M)).length := by
    rw [sortedReturns_length, finalReturns_length]
    exact hM
  refine ⟨?_, ?_, ?_, ?_⟩ <;>
    exact sorted_getD_mono _ (sortedReturns_sorted _) _ _
      (pctIdx_mono _ _ _ (by norm_num))
      (pctIdx_lt _ hn _ (by norm_num))

/-- Witness for C5_thm at M = 1 with the all-zero stream. -/
theorem C5_thm_witness :
    1 ≤ 1 ∧
    ((simulate_30_day_returns ratSqrt (fun _ => 0) ⟨1, 0, 0⟩ 1).p10
        ≤ (simulate_30_day_returns ratSqrt (fun _ => 0) ⟨1, 0, 0⟩ 1).p25 ∧
     (simulate_30_day_returns ratSqrt (fun _ => 0) ⟨1, 0, 0⟩ 1).p25
        ≤ (simulate_30_day_returns ratSqrt (fun _ => 0) ⟨1, 0, 0⟩ 1).median_return ∧
     (simulate_30_day_returns ratSqrt (fun _ => 0) ⟨1, 0, 0⟩ 1).median_return
        ≤ (simulate_30_day_returns ratSqrt (fun _ => 0) ⟨1, 0, 0⟩ 1).p75 ∧
     (simulate_30_day_returns ratSqrt (fun _ => 0) ⟨1, 0, 0⟩ 1).p75
        ≤ (simulate_30_day_returns ratSqrt (fun _ => 0) ⟨1, 0, 0⟩ 1).p90) :=
  ⟨le_refl 1, C5_thm ratSqrt (fun _ => 0) ⟨1, 0, 0⟩ 1 (le_refl 1)⟩

/-- Claim C7 (code_bug): the claim says u1 is taken from (0,1] so the
logarithm of the Box-Muller transform never sees 0.  In the code u1 comes
from random.random(), whose range is the half-open interval [0,1): the
value 0 is a possible draw, and at u1 = 0 the argument of math.log lies
outside its domain, so the draw can raise a ValueError. -/
theorem C7_thm : pythonUnitRange 0 ∧ ¬ logDomain 0 :=
  ⟨⟨le_refl 0, by norm_num⟩, by simp [logDomain]⟩

/-- Claim C8 (confirmed): the aggregator reseeds the global generator
from the asset name on entry, so its statistics bundle does not depend on
the incoming generator state: two invocations with the same square-root
oracle, generator step function, seed function, hash function, asset
name, parameters and trial count produce identical bundles, whatever
states g1 and g2 the generator was left in beforehand. -/
theorem C8_thm (s : ℚ → ℚ) (next : ℕ → ℚ × ℕ) (seedFn : ℕ → ℕ) (hashFn : String → ℤ)
    (crypto : String) (params : AssetParams) (M : ℕ) (g1 g2 : ℕ) :
    (simulateSeeded s next seedFn hashFn crypto params M g1).1
      = (simulateSeeded s next seedFn hashFn crypto params M g2).1 := rfl

/-- Claim C9 (code_bug): the claim says initial_price <= 0 or a
non-positive trial count fails fast with a typed InvalidParameterError
before any trial runs.  The code validates nothing: with
initial_price = -100 all five trials run and a normal statistics bundle
is returned (isSome), and with trial count 0 the failure is an untyped
ZeroDivisionError in the statistics block (none), after the trial loop. -/
theorem C9_thm :
    (simulateChecked ratSqrt (fun _ => 0) ⟨-100, 0, 0⟩ 5).isSome = true ∧
    simulateChecked ratSqrt (fun _ => 0) ⟨100, 0, 0⟩ 0 = none := by
  constructor
  · rw [simulateChecked, if_neg (by norm_num)]
    rfl
  · rw [simulateChecked, if_pos (Or.inl rfl)]

/-- Claim C10 (confirmed): for every trial count M >= 1 the denominator
len(final_returns) of the mean, loss-probability and variance divisions
is nonzero, and all five percentile indices int(len * q) are strictly
below the length of the sorted list, so the indexing is in bounds. -/
theorem C10_thm (stream : ℕ → ℚ) (params : AssetParams) (M : ℕ) (hM : 1 ≤ M) :
    ((finalReturns params stream M).length : ℚ) ≠ 0 ∧
    (sortedReturns (finalReturns params stream M)).length = M ∧
    pctIdx (sortedReturns (finalReturns params stream M)).length 0.10
        < (sortedReturns (finalReturns params stream M)).length ∧
    pctIdx (sortedReturns (finalReturns params stream M)).length 0.25
        < (sortedReturns (finalReturns params stream M)).length ∧
    pctIdx (sortedReturns (finalReturns params stream M)).length 0.50
        < (sortedReturns (finalReturns params stream M)).length ∧
    pctIdx (sortedReturns (finalReturns params stream M)).length 0.75
        < (sortedReturns (finalReturns params stream M)).length ∧
    pctIdx (sortedReturns (finalReturns params stream M)).length 0.90
        < (sortedReturns (finalReturns params stream M)).length := by
  have h1 : (finalReturns params stream M).length = M := finalReturns_length _ _ _
  have h2 : (sortedReturns (finalReturns params stream M)).length = M := by
    rw [sortedReturns_length, h1]
  have hn : 1 ≤ (sortedReturns (finalReturns params stream M)).length := by omega
  refine ⟨?_, h2, ?_, ?_, ?_, ?_, ?_⟩
  · rw [h1]
    exact Nat.cast_ne_zero.mpr (by omega)
  all_goals exact pctIdx_lt _ hn _ (by norm_num)

/-- Witness for C10_thm at M = 1 with the all-zero stream. -/
theorem C10_thm_witness :
    1 ≤ 1 ∧
    (((finalReturns ⟨1, 0, 0⟩ (fun _ => 0) 1).length : ℚ) ≠ 0 ∧
     (sortedReturns (finalReturns ⟨1, 0, 0⟩ (fun _ => 0) 1)).length = 1 ∧
     pctIdx (sortedReturns (finalReturns ⟨1, 0, 0⟩ (fun _ => 0) 1)).length 0.10
         < (sortedReturns (finalReturns ⟨1, 0, 0⟩ (fun _ => 0) 1)).length ∧
     pctIdx (sortedReturns (finalReturns ⟨1, 0, 0⟩ (fun _ => 0) 1)).length 0.25
         < (sortedReturns (finalReturns ⟨1, 0, 0⟩ (fun _ => 0) 1)).length ∧
     pctIdx (sortedReturns (finalReturns ⟨1, 0, 0⟩ (fun _ => 0) 1)).length 0.50
         < (sortedReturns (finalReturns ⟨1, 0, 0⟩ (fun _ => 0) 1)).length ∧
     pctIdx (sortedReturns (finalReturns ⟨1, 0, 0⟩ (fun _ => 0) 1)).length 0.75
         < (sortedReturns (finalReturns ⟨1, 0, 0⟩ (fun _ => 0) 1)).length ∧
     pctIdx (sortedReturns (finalReturns ⟨1, 0, 0⟩ (fun _ => 0) 1)).length 0.90
         < (sortedReturns (finalReturns ⟨1, 0, 0⟩ (fun _ => 0) 1)).length) :=
  ⟨le_refl 1, C10_thm (fun _ => 0) ⟨1, 0, 0⟩ 1 (le_refl 1)⟩

/-- Claim C2 (corrected, amended): every raw sub-score except the
downside sub-score is clipped to [0,100]; downside_score =
max(100 + p10, 0) is clipped only below.  Hence the maximizer profit
score lies in [0,100] whenever p10 <= 0 (it can exceed 100 when
p10 > 0, see the counterexample), and the predictor composite score lies
in [0,100] whenever the probability of loss lies in [0,100]. -/
theorem C2_thm (st : SimStats) (avg sh pl mom : ℚ) (h10 : st.p10 ≤ 0)
    (hpl0 : 0 ≤ pl) (hpl1 : pl ≤ 100) :
    (0 ≤ calculate_profit_score st ∧ calculate_profit_score st ≤ 100) ∧
    (0 ≤ calculate_composite_score avg sh pl mom ∧
     calculate_composite_score avg sh pl mom ≤ 100) := by
  constructor
  · obtain ⟨a1, a2⟩ := clip_bounds (st.avg_return * 3)
    obtain ⟨b1, b2⟩ := clip_bounds (st.p90 * 2)
    obtain ⟨e1, e2⟩ := clip_bounds (st.sharpe * 25)
    have d1 : (0 : ℚ) ≤ max (100 + st.p10) 0 := le_max_right _ _
    have d2 : max (100 + st.p10) 0 ≤ 100 := max_le (by linarith) (by norm_num)
    rcases hso : st.sortino with _ | v
    · simp only [calculate_profit_score, hso]
      constructor <;> linarith
    · obtain ⟨c1, c2⟩ := clip_bounds (v * 15)
      simp only [calculate_profit_score, hso]
      constructor <;> linarith
  · obtain ⟨a1, a2⟩ := clip_bounds (avg * 2)
    obtain ⟨b1, b2⟩ := clip_bounds (sh * 20)
    obtain ⟨c1, c2⟩ := clip_bounds (mom * 2)
    have d1 : (0 : ℚ) ≤ max (100 - pl) 0 := le_max_right _ _
    have d2 : max (100 - pl) 0 ≤ 100 := max_le (by linarith) (by norm_num)
    simp only [calculate_composite_score]
    constructor <;> linarith

/-- Witness for C2_thm at an explicit bundle with p10 = 0 and all other
inputs 0. -/
theorem C2_thm_witness :
    ((⟨0, 0, 0, 0, 0, 0, 0, 0, 0, some 0, 0, 0, 0⟩ : SimStats).p10 ≤ 0 ∧
     (0 : ℚ) ≤ 0 ∧ (0 : ℚ) ≤ 100) ∧
    ((0 ≤ calculate_profit_score ⟨0, 0, 0, 0, 0, 0, 0, 0, 0, some 0, 0, 0, 0⟩ ∧
      calculate_profit_score ⟨0, 0, 0, 0, 0, 0, 0, 0, 0, some 0, 0, 0, 0⟩ ≤ 100) ∧
     (0 ≤ calculate_composite_score 0 0 0 0 ∧ calculate_composite_score 0 0 0 0 ≤ 100)) :=
  ⟨⟨le_refl 0, le_refl 0, by norm_num⟩,
   C2_thm ⟨0, 0, 0, 0, 0, 0, 0, 0, 0, some 0, 0, 0, 0⟩ 0 0 0 0 (le_refl 0) (le_refl 0) (by norm_num)⟩

/-- Claim C1 counterexample: with initial_price = 100, volatility 0,
drift 0.01 and the all-zero shock stream, the trial loop multiplies
thirty times, so the terminal price is 100 * 1.01^30, which differs from
the claimed 100 * 1.01^29; accordingly the mean return of the bundle at
M = 1 differs from the claimed (1.01^29 - 1) * 100. -/
theorem C1_counterexample :
    trialFinalPrice ⟨100, 0, 1/100⟩ (fun _ => 0) = 100 * (101/100) ^ 30 ∧
    100 * ((101 : ℚ)/100) ^ 30 ≠ 100 * (101/100) ^ 29 ∧
    (simulate_30_day_returns ratSqrt (fun _ => 0) ⟨100, 0, 1/100⟩ 1).avg_return
      ≠ (((101 : ℚ)/100) ^ 29 - 1) * 100 := by
  have hprice : ∀ z : ℕ → ℚ, trialFinalPrice ⟨100, 0, 1/100⟩ z = 100 * (101/100) ^ 30 := by
    intro z
    rw [trialFinalPrice, stepPrice_zero_vol]
    norm_num
  have htr : ∀ z : ℕ → ℚ, trialReturnPct ⟨100, 0, 1/100⟩ z = (((101 : ℚ)/100) ^ 30 - 1) * 100 := by
    intro z
    rw [trialReturnPct, hprice z]
    show (100 * (101/100 : ℚ) ^ 30 - 100) / 100 * 100 = _
    ring
  have hfr : finalReturns ⟨100, 0, 1/100⟩ (fun _ => 0) 1
      = List.replicate 1 ((((101 : ℚ)/100) ^ 30 - 1) * 100) :=
    finalReturns_const _ _ _ _ (fun t => htr _)
  refine ⟨hprice _, by norm_num, ?_⟩
  rw [simulate_30_day_returns, hfr, computeStats_avg]
  norm_num

/-- Claim C1 (corrected, amended): with initial_price = 100, volatility 0,
drift 0.01, an all-zero shock stream and any trial count M >= 1, every
trial of the aggregator ends at terminal price 100 * 1.01^30 (the loop
takes thirty steps, not twenty-nine), the mean return is exactly
(1.01^30 - 1) * 100 (about 34.78), the volatility is 0 and the
probability of loss is 0. -/
theorem C1_thm (s : ℚ → ℚ) (M : ℕ) (hs : s 0 = 0) (hM : 1 ≤ M) :
    (∀ z : ℕ → ℚ, trialFinalPrice ⟨100, 0, 1/100⟩ z = 100 * (101/100) ^ 30) ∧
    (simulate_30_day_returns s (fun _ => 0) ⟨100, 0, 1/100⟩ M).avg_return
      = (((101 : ℚ)/100) ^ 30 - 1) * 100 ∧
    (simulate_30_day_returns s (fun _ => 0) ⟨100, 0, 1/100⟩ M).volatility = 0 ∧
    (simulate_30_day_returns s (fun _ => 0) ⟨100, 0, 1/100⟩ M).prob_loss = 0 := by
  have hprice : ∀ z : ℕ → ℚ, trialFinalPrice ⟨100, 0, 1/100⟩ z = 100 * (101/100) ^ 30 := by
    intro z
    rw [trialFinalPrice, stepPrice_zero_vol]
    norm_num
  have htr : ∀ z : ℕ → ℚ, trialReturnPct ⟨100, 0, 1/100⟩ z = (((101 : ℚ)/100) ^ 30 - 1) * 100 := by
    intro z
    rw [trialReturnPct, hprice z]
    show (100 * (101/100 : ℚ) ^ 30 - 100) / 100 * 100 = _
    ring
  have hfr : finalReturns ⟨100, 0, 1/100⟩ (fun _ => 0) M
      = List.replicate M ((((101 : ℚ)/100) ^ 30 - 1) * 100) :=
    finalReturns_const _ _ _ _ (fun t => htr _)
  have hc : (0 : ℚ) < (((101 : ℚ)/100) ^ 30 - 1) * 100 := by
    have h1 : (1 : ℚ) < (101/100) ^ 30 := one_lt_pow (by norm_num) (by norm_num)
    linarith
  have hmain := computeStats_replicate s M ((((101 : ℚ)/100) ^ 30 - 1) * 100) hM hc hs
  rw [simulate_30_day_returns, hfr]
  exact ⟨hprice, hmain.1, hmain.2.1, hmain.2.2⟩

/-- Witness for C1_thm at M = 1 with the concrete square-root oracle. -/
theorem C1_thm_witness :
    (ratSqrt 0 = 0 ∧ 1 ≤ 1) ∧
    ((∀ z : ℕ → ℚ, trialFinalPrice ⟨100, 0, 1/100⟩ z = 100 * (101/100) ^ 30) ∧
     (simulate_30_day_returns ratSqrt (fun _ => 0) ⟨100, 0, 1/100⟩ 1).avg_return
       = (((101 : ℚ)/100) ^ 30 - 1) * 100 ∧
     (simulate_30_day_returns ratSqrt (fun _ => 0) ⟨100, 0, 1/100⟩ 1).volatility = 0 ∧
     (simulate_30_day_returns ratSqrt (fun _ => 0) ⟨100, 0, 1/100⟩ 1).prob_loss = 0) := by
  have h0 : ratSqrt 0 = 0 := by
    simp [ratSqrt]
  exact ⟨⟨h0, le_refl 1⟩, C1_thm ratSqrt 1 h0 (le_refl 1)⟩

theorem trialReturnPct_impulse (p v : ℚ) (hp : p ≠ 0) (z : ℕ → ℚ)
    (hz : ∀ d, 1 ≤ d → d < 30 → z d = 0) :
    trialReturnPct ⟨p, v, 0⟩ z = v * z 0 * 100 := by
  rw [trialReturnPct, trialFinalPrice, stepPrice_impulse p v z 30 (by norm_num) hz]
  show (p * (1 + v * z 0) - p) / p * 100 = _
  field_simp
  ring

/-- Claim C2 counterexample: a bundle actually produced by the aggregator
(initial price 100, volatility 1, drift 0, two trials with terminal
returns 59 and 61) has p10 = 59 > 0, so the unclipped downside sub-score
is 159 and the maximizer composite score is 108.85, outside [0,100]. -/
theorem C2_counterexample :
    100 < calculate_profit_score (simulate_30_day_returns ratSqrt shockC2 ⟨100, 1, 0⟩ 2) := by
  have hz0 : ∀ d, 1 ≤ d → d < 30 → shockC2 (30 * 0 + d) = 0 := by
    intro d hd1 hd2
    simp only [shockC2]
    rw [if_neg (by omega), if_neg (by omega)]
  have hz1 : ∀ d, 1 ≤ d → d < 30 → shockC2 (30 * 1 + d) = 0 := by
    intro d hd1 hd2
    simp only [shockC2]
    rw [if_neg (by omega), if_neg (by omega)]
  have ht0 : trialReturnPct ⟨100, 1, 0⟩ (fun d => shockC2 (30 * 0 + d)) = 59 := by
    rw [trialReturnPct_impulse 100 1 (by norm_num) (fun d => shockC2 (30 * 0 + d)) hz0]
    norm_num [shockC2]
  have ht1 : trialReturnPct ⟨100, 1, 0⟩ (fun d => shockC2 (30 * 1 + d)) = 61 := by
    rw [trialReturnPct_impulse 100 1 (by norm_num) (fun d => shockC2 (30 * 1 + d)) hz1]
    norm_num [shockC2]
  have hfr2 : finalReturns ⟨100, 1, 0⟩ shockC2 2 = [59, 61] := by
    rw [finalReturns, show List.range 2 = [0, 1] from rfl]
    simp only [List.map_cons, List.map_nil]
    rw [ht0, ht1]
  have hsort : sortedReturns [59, 61] = [59, 61] := by
    norm_num [sortedReturns, List.insertionSort, List.orderedInsert]
  have e1 : (computeStats ratSqrt [59, 61]).avg_return = 60 := by
    rw [computeStats_avg]
    norm_num
  have e2 : (computeStats ratSqrt [59, 61]).p90 = 61 := by
    rw [computeStats_p90, hsort]
    norm_num [pctIdx, List.getD]
  have e3 : (computeStats ratSqrt [59, 61]).p10 = 59 := by
    rw [computeStats_p10, hsort]
    norm_num [pctIdx, List.getD]
  have e4 : (computeStats ratSqrt [59, 61]).sharpe = 60 := by
    rw [computeStats_sharpe]
    norm_num [ratSqrt_one]
  have e5 : (computeStats ratSqrt [59, 61]).sortino = none := by
    rw [computeStats_sortino]
    norm_num [List.filter]
  rw [simulate_30_day_returns, hfr2]
  simp only [calculate_profit_score, e1, e2, e3, e4, e5]
  norm_num [min_def, max_def]

/-- Claim C6 counterexample: on the aggregator run with terminal returns
[-1, -7, 32] the code divides the mean 8 by the root mean square of the
negative subsample, sqrt((1 + 49)/2) = 5, giving 8/5; dividing by the
standard deviation of the negative subsample about its own mean -4,
sqrt(((3)^2 + (-3)^2)/2) = 3, as the claim words it, would give 8/3.  The
square-root oracle is certified exact at both points used. -/
theorem C6_counterexample :
    (simulate_30_day_returns ratSqrt shockC6 ⟨100, 1, 0⟩ 3).sortino = some (8/5) ∧
    sortinoSpec ratSqrt (finalReturns ⟨100, 1, 0⟩ shockC6 3) = some (8/3) ∧
    ratSqrt 25 = 5 ∧ ratSqrt 9 = 3 ∧ ((8 : ℚ)/5 ≠ 8/3) := by
  have hz0 : ∀ d, 1 ≤ d → d < 30 → shockC6 (30 * 0 + d) = 0 := by
    intro d hd1 hd2
    simp only [shockC6]
    rw [if_neg (by omega), if_neg (by omega), if_neg (by omega)]
  have hz1 : ∀ d, 1 ≤ d → d < 30 → shockC6 (30 * 1 + d) = 0 := by
    intro d hd1 hd2
    simp only [shockC6]
    rw [if_neg (by omega), if_neg (by omega), if_neg (by omega)]
  have hz2 : ∀ d, 1 ≤ d → d < 30 → shockC6 (30 * 2 + d) = 0 := by
    intro d hd1 hd2
    simp only [shockC6]
    rw [if_neg (by omega), if_neg (by omega), if_neg (by omega)]
  have ht0 : trialReturnPct ⟨100, 1, 0⟩ (fun d => shockC6 (30 * 0 + d)) = -1 := by
    rw [trialReturnPct_impulse 100 1 (by norm_num) (fun d => shockC6 (30 * 0 + d)) hz0]
    norm_num [shockC6]
  have ht1 : trialReturnPct ⟨100, 1, 0⟩ (fun d => shockC6 (30 * 1 + d)) = -7 := by
    rw [trialReturnPct_impulse 100 1 (by norm_num) (fun d => shockC6 (30 * 1 + d)) hz1]
    norm_num [shockC6]
  have ht2 : trialReturnPct ⟨100, 1, 0⟩ (fun d => shockC6 (30 * 2 + d)) = 32 := by
    rw [trialReturnPct_impulse 100 1 (by norm_num) (fun d => shockC6 (30 * 2 + d)) hz2]
    norm_num [shockC6]
  have hfr6 : finalReturns ⟨100, 1, 0⟩ shockC6 3 = [-1, -7, 32] := by
    rw [finalReturns, show List.range 3 = [0, 1, 2] from rfl]
    simp only [List.map_cons, List.map_nil]
    rw [ht0, ht1, ht2]
  have hdv : downsideVariance ([-1, -7, 32] : List ℚ) = 25 := by
    norm_num [downsideVariance, List.filter]
  refine ⟨?_, ?_, ratSqrt_twentyfive, ratSqrt_nine, by norm_num⟩
  · rw [simulate_30_day_returns, hfr6, computeStats_sortino, hdv, ratSqrt_twentyfive]
    norm_num [List.filter]
    intro h
    exact absurd h (by simp)
  · rw [hfr6]
    norm_num [sortinoSpec, List.filter, ratSqrt_nine]
    intro h
    exact absurd h (by simp)

/-- Claim C6 (corrected, amended): whenever the square-root oracle is a
genuine square root at the downside variance (non-negative, squaring
back), the Sortino ratio reported by the aggregator equals the mean
terminal return divided by the root mean square of the negative-return
subsample, i.e. the square root of the mean of the squared negative
returns (deviation about zero, not about the subsample mean); when no
return is negative it is the +infinity sentinel (none) if the mean is
positive and 0 otherwise.  The zero-denominator guard of the code never
fires: a nonempty negative subsample forces a positive downside
variance. -/
theorem C6_thm (s : ℚ → ℚ) (l : List ℚ)
    (h1 : 0 ≤ s (downsideVariance l))
    (h2 : s (downsideVariance l) * s (downsideVariance l) = downsideVariance l) :
    (computeStats s l).sortino
      = (if l.filter (fun r => decide (r < 0)) = [] then
          (if 0 < l.sum / (l.length : ℚ) then none else some 0)
        else some ((l.sum / (l.length : ℚ)) / s (downsideVariance l))) := by
  rw [computeStats_sortino]
  by_cases hfil : l.filter (fun r => decide (r < 0)) = []
  · rw [if_pos hfil, if_pos hfil]
  · rw [if_neg hfil, if_neg hfil]
    have hdv : 0 < downsideVariance l := by
      simp only [downsideVariance]
      apply div_pos
      · apply List.sum_pos
        · intro x hx
          obtain ⟨r, hr, rfl⟩ := List.mem_map.mp hx
          have hrneg : r < 0 := by simpa using (List.mem_filter.mp hr).2
          exact pow_two_pos_of_ne_zero (ne_of_lt hrneg)
        · simpa using hfil
      · exact_mod_cast List.length_pos.mpr hfil
    have hsd : 0 < s (downsideVariance l) := by
      rcases lt_or_eq_of_le h1 with h | h
      · exact h
      · exfalso
        rw [← h] at h2
        rw [← h2] at hdv
        simp at hdv
    rw [if_pos hsd]

/-- Witness for C6_thm at the list [-1, -7, 32], whose downside variance
25 is a perfect square of the oracle value 5. -/
theorem C6_thm_witness :
    (0 ≤ ratSqrt (downsideVariance [-1, -7, 32]) ∧
     ratSqrt (downsideVariance [-1, -7, 32]) * ratSqrt (downsideVariance [-1, -7, 32])
       = downsideVariance [-1, -7, 32]) ∧
    (computeStats ratSqrt [-1, -7, 32]).sortino
      = (if ([-1, -7, 32] : List ℚ).filter (fun r => decide (r < 0)) = [] then
          (if 0 < ([-1, -7, 32] : List ℚ).sum / ((([-1, -7, 32] : List ℚ)).length : ℚ)
           then none else some 0)
        else some ((([-1, -7, 32] : List ℚ).sum / ((([-1, -7, 32] : List ℚ)).length : ℚ))
            / ratSqrt (downsideVariance [-1, -7, 32]))) := by
  have hdv : downsideVariance ([-1, -7, 32] : List ℚ) = 25 := by
    norm_num [downsideVariance, List.filter]
  have h1 : 0 ≤ ratSqrt (downsideVariance ([-1, -7, 32] : List ℚ)) := by
    rw [hdv, ratSqrt_twentyfive]
    norm_num
  have h2 : ratSqrt (downsideVariance ([-1, -7, 32] : List ℚ))
      * ratSqrt (downsideVariance ([-1, -7, 32] : List ℚ))
      = downsideVariance ([-1, -7, 32] : List ℚ) := by
    rw [hdv, ratSqrt_twentyfive]
    norm_num
  exact ⟨⟨h1, h2⟩, C6_thm ratSqrt [-1, -7, 32] h1 h2⟩
